import Mathlib

/-!
Shallow embedding of the turn-based game-session engine
(src/gameEngine.js) together with proofs about its operations.

Modelling conventions:
* JavaScript `new Date()` timestamps are explicit `now : Nat` parameters.
* `Math.random()` draws in `generateTurnOrder` are an explicit
  `rand : Nat → Nat` oracle; the value used at loop index `i` is
  `rand i % (i + 1)`, which ranges over `[0, i]` exactly as
  `Math.floor(Math.random() * (i + 1))` does.
* A JavaScript `throw` is an `Except.error` result; since `throw` does not
  roll back mutations already performed, every operation returns the pair
  of its `Except` outcome and the engine state as mutated so far.
* `null`/`undefined` fields are `Option`; the opaque `gameData` payload and
  actions are association lists.
* The overridable game-type hooks (`initializeGameData`, `validateAction`,
  `executeAction`, `getDefaultAction`, `filterPrivateData`) are a record of
  functions; `baseHooks` is the inert default implementation of the base
  class.
* The engine state models a single session (`activeGames` entry for one id,
  `none` once absent) plus the armed/disarmed status of its two timers.
-/

namespace TurnEngine

inductive GameStatus where
  | waiting
  | active
  | ended
deriving DecidableEq, Repr

/-- Opaque game-type payload (`game.state.gameData`), an association list. -/
abbrev GameData := List (String × String)

/-- Opaque action payload. -/
abbrev Action := List (String × String)

/-- Participant record built in addPlayer (src/gameEngine.js:68-75). -/
structure GamePlayer where
  id : String
  name : String
  ready : Bool
  connected : Bool
  joinedAt : Nat
  lastActivity : Nat
deriving DecidableEq, Repr

/-- The per-session mutable state `game.state` (src/gameEngine.js:25-33,
plus the fields assigned later: startedAt, endedAt, endReason, winner). -/
structure SessionState where
  status : GameStatus
  players : List GamePlayer
  currentTurn : Option String
  turnOrder : List String
  gameData : GameData
  createdAt : Nat
  updatedAt : Nat
  startedAt : Option Nat
  endedAt : Option Nat
  endReason : Option String
  winner : Option String
deriving DecidableEq, Repr

/-- Creation-time configuration (`gameConfig`): the fields the engine reads. -/
structure GameConfig where
  minPlayers : Nat
  maxPlayers : Option Nat
  turnTimeLimit : Option Nat
deriving DecidableEq, Repr

/-- Default `config.game.maxPlayersPerGame` (config module, default 8). -/
def maxPlayersPerGame : Nat := 8

/-- Default `config.game.turnTimeLimit` (config module, default 30000 ms). -/
def defaultTurnTimeLimit : Nat := 30000

/-- JavaScript `v || dflt` on an optional numeric config field:
`undefined` and `0` are falsy. -/
def jsOrNat (v : Option Nat) (dflt : Nat) : Nat :=
  match v with
  | some n => if n = 0 then dflt else n
  | none => dflt

/-- One entry of `activeGames` (src/gameEngine.js:22-37). -/
structure Game where
  config : GameConfig
  state : SessionState
  maxPlayers : Nat
  turnTimeLimit : Nat
deriving DecidableEq, Repr

/-- Engine state for one session: the `activeGames` entry (none when the id
is absent) and whether its turn timer / game-lifetime timer are armed. -/
structure Engine where
  game : Option Game
  turnTimerArmed : Bool
  gameTimerArmed : Bool
deriving DecidableEq, Repr

/-- A raised JavaScript error: `new Error(msg)` or a ReferenceError. -/
inductive JsError where
  | error (msg : String)
  | referenceError (msg : String)
deriving DecidableEq, Repr

/-- Result of the validateAction hook. -/
structure ValidationResult where
  valid : Bool
  error : Option String
deriving DecidableEq, Repr

/-- Result of the executeAction hook. -/
structure ActionResult where
  gameData : GameData
  gameEnded : Bool
  endReason : Option String
  winner : Option String
deriving DecidableEq, Repr

/-- The overridable game-type extension points (src/gameEngine.js:427-474).
`validateAction`, `executeAction` and `getDefaultAction` receive the
playerId argument exactly as passed (which in the timeout path is
`game.state.currentTurn` itself, hence `Option String`). -/
structure GameHooks where
  initializeGameData : Game → GameData
  validateAction : Game → Option String → Action → ValidationResult
  executeAction : Game → Option String → Action → ActionResult
  getDefaultAction : Game → Option String → Option Action
  filterPrivateData : GameData → String → GameData

/-- The base-class implementations: empty data, always-valid, identity
execution, no default action, unfiltered passthrough. -/
def baseHooks : GameHooks where
  initializeGameData := fun _ => []
  validateAction := fun _ _ _ => ⟨true, none⟩
  executeAction := fun g _ _ => ⟨g.state.gameData, false, none, none⟩
  getDefaultAction := fun _ _ => none
  filterPrivateData := fun d _ => d

/-- Input to addPlayer: the caller-supplied player object fields read. -/
structure PlayerInfo where
  id : String
  name : String
deriving DecidableEq, Repr

/-- One iteration body of the Fisher-Yates loop:
`[a[i], a[j]] = [a[j], a[i]]` (src/gameEngine.js:274). -/
def listSwap (l : List String) (i j : Nat) : List String :=
  match l.get? i, l.get? j with
  | some x, some y => (l.set i y).set j x
  | _, _ => l

/-- The Fisher-Yates loop `for (let i = n-1; i > 0; i--)`
(src/gameEngine.js:272-275), counting the index down. -/
def fyLoop (rand : Nat → Nat) : Nat → List String → List String
  | 0, l => l
  | i + 1, l => fyLoop rand i (listSwap l (i + 1) (rand (i + 1) % (i + 2)))

/-- GameEngine.generateTurnOrder (src/gameEngine.js:269-277). -/
def generateTurnOrder (rand : Nat → Nat) (players : List GamePlayer) : List String :=
  fyLoop rand ((players.map (fun p => p.id)).length - 1) (players.map (fun p => p.id))

/-- GameEngine.createGame (src/gameEngine.js:20-46): a fresh waiting session;
`setGameTimeout` arms the game-lifetime timer. -/
def createGame (gameConfig : GameConfig) (now : Nat) : Engine where
  game := some
    { config := gameConfig
      state :=
        { status := GameStatus.waiting
          players := []
          currentTurn := none
          turnOrder := []
          gameData := []
          createdAt := now
          updatedAt := now
          startedAt := none
          endedAt := none
          endReason := none
          winner := none }
      maxPlayers := jsOrNat gameConfig.maxPlayers maxPlayersPerGame
      turnTimeLimit := jsOrNat gameConfig.turnTimeLimit defaultTurnTimeLimit }
  turnTimerArmed := false
  gameTimerArmed := true

/-- GameEngine.clearTurnTimer (src/gameEngine.js:337-343). -/
def clearTurnTimer (e : Engine) : Engine :=
  { e with turnTimerArmed := false }

/-- GameEngine.clearGameTimers (src/gameEngine.js:380-388). -/
def clearGameTimers (e : Engine) : Engine :=
  { e with gameTimerArmed := false, turnTimerArmed := false }

/-- GameEngine.setTurnTimer (src/gameEngine.js:323-331). After clearing the
old timer it evaluates `setTimeout(..., game.turnTimeLimit)`, but no `game`
binding is in scope in this method (only `gameId`), so the delay argument
raises `ReferenceError: game is not defined` and the new timer is never
installed. -/
def setTurnTimer (e : Engine) : Except JsError Unit × Engine :=
  (Except.error (JsError.referenceError "game is not defined"), clearTurnTimer e)

/-- GameEngine.startTurn (src/gameEngine.js:283-297): silently returns when
the session is gone or the current-turn holder is not among the players;
otherwise arms the turn timer via setTurnTimer. -/
def startTurn (e : Engine) : Except JsError Unit × Engine :=
  match e.game with
  | none => (Except.ok (), e)
  | some g =>
    match g.state.players.find? (fun p => some p.id == g.state.currentTurn) with
    | none => (Except.ok (), e)
    | some _ => setTurnTimer e

/-- The currentTurn assignment of nextTurn (src/gameEngine.js:311-313):
`indexOf` yields -1 when the holder is absent (or null), so the next index
is `(indexOf + 1) % length`, which is 0 in that case; on an empty
turnOrder the JavaScript index is NaN and the lookup yields undefined. -/
def nextTurnValue (turnOrder : List String) (cur : Option String) : Option String :=
  if turnOrder.length = 0 then none
  else
    let currentIndex : Option Nat :=
      match cur with
      | some c => turnOrder.findIdx? (fun x => x == c)
      | none => none
    let nextIndex : Nat :=
      match currentIndex with
      | some i => (i + 1) % turnOrder.length
      | none => 0
    turnOrder.get? nextIndex

/-- GameEngine.nextTurn (src/gameEngine.js:303-317): clears the turn timer,
moves currentTurn one position forward in turnOrder, then startTurn. -/
def nextTurn (e : Engine) : Except JsError Unit × Engine :=
  match e.game with
  | none => (Except.ok (), e)
  | some g =>
    let e1 := clearTurnTimer e
    let g1 := { g with state :=
      { g.state with currentTurn := nextTurnValue g.state.turnOrder g.state.currentTurn } }
    startTurn { e1 with game := some g1 }

/-- GameEngine.endGame (src/gameEngine.js:235-262): stamps the terminal
fields and clears both timers. The persistence write catches its own
failures; the event emission and the delayed removal from activeGames are
outside the modelled per-session state. -/
def endGame (e : Engine) (now : Nat) (reason : Option String) (winner : Option String) :
    Except JsError Unit × Engine :=
  match e.game with
  | none => (Except.error (JsError.error "Game not found"), e)
  | some g =>
    let g1 := { g with state :=
      { g.state with
        status := GameStatus.ended
        endedAt := some now
        endReason := reason
        winner := winner
        updatedAt := now } }
    (Except.ok (), clearGameTimers { e with game := some g1 })

/-- GameEngine.processAction (src/gameEngine.js:167-205). The playerId is
kept as passed (the timeout path passes `game.state.currentTurn` itself);
the turn guard is `game.state.currentTurn !== playerId`. -/
def processAction (h : GameHooks) (e : Engine) (now : Nat)
    (playerId : Option String) (action : Action) : Except JsError ActionResult × Engine :=
  match e.game with
  | none => (Except.error (JsError.error "Game not found"), e)
  | some g =>
    if g.state.status ≠ GameStatus.active then
      (Except.error (JsError.error "Game is not active"), e)
    else if g.state.currentTurn ≠ playerId then
      (Except.error (JsError.error "Not your turn"), e)
    else
      let v := h.validateAction g playerId action
      if ¬ v.valid then
        (Except.error (JsError.error (v.error.getD "")), e)
      else
        let r := h.executeAction g playerId action
        let g1 := { g with state :=
          { g.state with gameData := r.gameData, updatedAt := now } }
        let e1 := { e with game := some g1 }
        if r.gameEnded then
          let (res, e2) := endGame e1 now r.endReason r.winner
          (res.map (fun _ => r), e2)
        else
          let (res, e2) := nextTurn e1
          (res.map (fun _ => r), e2)

/-- GameEngine.startGame (src/gameEngine.js:130-158): guards, then sets the
active state, computes turnOrder and currentTurn, installs the initial
gameData (the hook sees the already-updated game) and calls startTurn. -/
def startGame (h : GameHooks) (rand : Nat → Nat) (e : Engine) (now : Nat) :
    Except JsError Bool × Engine :=
  match e.game with
  | none => (Except.error (JsError.error "Game not found"), e)
  | some g =>
    if g.state.status ≠ GameStatus.waiting then
      (Except.error (JsError.error "Game is not in waiting status"), e)
    else if g.state.players.length < g.config.minPlayers then
      (Except.error (JsError.error "Not enough players to start game"), e)
    else
      let turnOrder := generateTurnOrder rand g.state.players
      let g1 := { g with state :=
        { g.state with
          status := GameStatus.active
          turnOrder := turnOrder
          currentTurn := turnOrder.get? 0 } }
      let g2 := { g1 with state :=
        { g1.state with
          gameData := h.initializeGameData g1
          startedAt := some now
          updatedAt := now } }
      let (res, e1) := startTurn { e with game := some g2 }
      (res.map (fun _ => true), e1)

/-- GameEngine.checkGameStart (src/gameEngine.js:403-412): auto-start when
every player is ready and there are at least minPlayers of them. -/
def checkGameStart (h : GameHooks) (rand : Nat → Nat) (e : Engine) (now : Nat) :
    Except JsError Unit × Engine :=
  match e.game with
  | none => (Except.ok (), e)
  | some g =>
    let readyPlayers := g.state.players.filter (fun p => p.ready)
    if g.config.minPlayers ≤ readyPlayers.length ∧
        readyPlayers.length = g.state.players.length then
      let (res, e1) := startGame h rand e now
      (res.map (fun _ => ()), e1)
    else (Except.ok (), e)

/-- GameEngine.addPlayer (src/gameEngine.js:54-88): capacity guard, then
duplicate guard, then append the fresh participant (ready=false,
connected=true) and evaluate auto-start eligibility. -/
def addPlayer (h : GameHooks) (rand : Nat → Nat) (e : Engine) (now : Nat)
    (player : PlayerInfo) : Except JsError Bool × Engine :=
  match e.game with
  | none => (Except.error (JsError.error "Game not found"), e)
  | some g =>
    if g.maxPlayers ≤ g.state.players.length then
      (Except.error (JsError.error "Game is full"), e)
    else if (g.state.players.find? (fun p => p.id == player.id)).isSome then
      (Except.error (JsError.error "Player already in game"), e)
    else
      let gamePlayer : GamePlayer :=
        { id := player.id, name := player.name, ready := false, connected := true
          joinedAt := now, lastActivity := now }
      let g1 := { g with state :=
        { g.state with players := g.state.players ++ [gamePlayer], updatedAt := now } }
      let e1 := { e with game := some g1 }
      if g1.config.minPlayers ≤ g1.state.players.length then
        let (res, e2) := checkGameStart h rand e1 now
        (res.map (fun _ => true), e2)
      else
        (Except.ok true, e1)

/-- GameEngine.removePlayer (src/gameEngine.js:96-123): splice the player
out; if they held the turn while active, advance the turn (an error there
propagates, skipping the population check); if the remaining population is
below minPlayers while active, end the session. -/
def removePlayer (e : Engine) (now : Nat) (playerId : String) :
    Except JsError Bool × Engine :=
  match e.game with
  | none => (Except.error (JsError.error "Game not found"), e)
  | some g =>
    match g.state.players.findIdx? (fun p => p.id == playerId) with
    | none => (Except.error (JsError.error "Player not found in game"), e)
    | some playerIndex =>
      let g1 := { g with state :=
        { g.state with players := g.state.players.eraseIdx playerIndex, updatedAt := now } }
      let e1 := { e with game := some g1 }
      let (r1, e2) :=
        if g1.state.status = GameStatus.active ∧ g1.state.currentTurn = some playerId then
          nextTurn e1
        else (Except.ok (), e1)
      match r1 with
      | Except.error err => (Except.error err, e2)
      | Except.ok _ =>
        match e2.game with
        | none => (Except.ok true, e2)
        | some g2 =>
          if g2.state.players.length < g2.config.minPlayers ∧
              g2.state.status = GameStatus.active then
            let (r2, e3) := endGame e2 now (some "insufficient_players") none
            (r2.map (fun _ => true), e3)
          else (Except.ok true, e2)

/-- GameEngine.getGameState (src/gameEngine.js:213-227): shallow-copies the
session state and, when a (truthy) playerId is given, replaces gameData on
the copy by the filterPrivateData projection. The empty string is falsy in
JavaScript, hence the extra guard. -/
def getGameState (h : GameHooks) (e : Engine) (playerId : Option String) :
    Except JsError SessionState × Engine :=
  match e.game with
  | none => (Except.error (JsError.error "Game not found"), e)
  | some g =>
    let st := g.state
    let st1 :=
      match playerId with
      | some pid =>
        if pid = "" then st
        else { st with gameData := h.filterPrivateData st.gameData pid }
      | none => st
    (Except.ok st1, e)

/-- GameEngine.handleTurnTimeout (src/gameEngine.js:349-362): on expiry,
ask the hook for a default action; process it as the current holder if one
is supplied, else advance the turn directly. There is no catch here nor
around the setTimeout callback. -/
def handleTurnTimeout (h : GameHooks) (e : Engine) (now : Nat) :
    Except JsError Unit × Engine :=
  match e.game with
  | none => (Except.ok (), e)
  | some g =>
    match h.getDefaultAction g g.state.currentTurn with
    | some defaultAction =>
      let (res, e1) := processAction h e now g.state.currentTurn defaultAction
      (res.map (fun _ => ()), e1)
    | none => nextTurn e

/-- GameEngine.handleGameTimeout (src/gameEngine.js:394-397). -/
def handleGameTimeout (e : Engine) (now : Nat) : Except JsError Unit × Engine :=
  endGame e now (some "timeout") none

end TurnEngine

namespace TurnEngine

/-! ### Derived definitions used by the statements -/

/-- Session invariant: whenever currentTurn is non-null it is an element of
turnOrder. -/
def CurrentTurnInOrder (e : Engine) : Prop :=
  ∀ g c, e.game = some g → g.state.currentTurn = some c → c ∈ g.state.turnOrder

/-- One engine operation applied to the session, as a step relation over
engine states (for a fixed game-type hook set). -/
inductive EngineStep (h : GameHooks) : Engine → Engine → Prop where
  | ofAddPlayer (e : Engine) (rand : Nat → Nat) (now : Nat) (p : PlayerInfo) :
      EngineStep h e (addPlayer h rand e now p).2
  | ofRemovePlayer (e : Engine) (now : Nat) (pid : String) :
      EngineStep h e (removePlayer e now pid).2
  | ofStartGame (e : Engine) (rand : Nat → Nat) (now : Nat) :
      EngineStep h e (startGame h rand e now).2
  | ofProcessAction (e : Engine) (now : Nat) (pid : Option String) (a : Action) :
      EngineStep h e (processAction h e now pid a).2
  | ofNextTurn (e : Engine) :
      EngineStep h e (nextTurn e).2
  | ofHandleTurnTimeout (e : Engine) (now : Nat) :
      EngineStep h e (handleTurnTimeout h e now).2
  | ofHandleGameTimeout (e : Engine) (now : Nat) :
      EngineStep h e (handleGameTimeout e now).2
  | ofEndGame (e : Engine) (now : Nat) (reason winner : Option String) :
      EngineStep h e (endGame e now reason winner).2

/-- Reachability of an engine state from another via engine operations. -/
def ReachableFrom (h : GameHooks) : Engine → Engine → Prop :=
  Relation.ReflTransGen (EngineStep h)

/-- The engine state after n successive nextTurn advances. -/
def iterateNextTurn (e : Engine) : Nat → Engine
  | 0 => e
  | n + 1 => iterateNextTurn (nextTurn e).2 n

/-- Folding an arbitrary sequence of addPlayer calls over the engine. -/
def applyAddPlayers (h : GameHooks) (rand : Nat → Nat) (e : Engine) :
    List (Nat × PlayerInfo) → Engine
  | [] => e
  | (now, p) :: rest => applyAddPlayers h rand (addPlayer h rand e now p).2 rest

/-- Capacity invariant: players.length never exceeds the session maximum. -/
def PlayersWithinCap (e : Engine) : Prop :=
  ∀ g, e.game = some g → g.state.players.length ≤ g.maxPlayers

/-! ### Projections and concrete sessions used in closed statements -/

/-- The session currentTurn seen from outside (none when the session or the
holder is absent). -/
def engineCurrentTurn (e : Engine) : Option String :=
  e.game.bind (fun g => g.state.currentTurn)

/-- The identifiers of the participants currently present. -/
def enginePlayerIds (e : Engine) : Option (List String) :=
  e.game.map (fun g => g.state.players.map (fun p => p.id))

/-- The session turnOrder. -/
def engineTurnOrder (e : Engine) : Option (List String) :=
  e.game.map (fun g => g.state.turnOrder)

/-- The session endedAt stamp. -/
def engineEndedAt (e : Engine) : Option (Option Nat) :=
  e.game.map (fun g => g.state.endedAt)

/-- The session status. -/
def engineStatus (e : Engine) : Option GameStatus :=
  e.game.map (fun g => g.state.status)

/-- The session endReason. -/
def engineEndReason (e : Engine) : Option (Option String) :=
  e.game.map (fun g => g.state.endReason)

/-- The session winner. -/
def engineWinner (e : Engine) : Option (Option String) :=
  e.game.map (fun g => g.state.winner)

/-- The session gameData. -/
def engineGameData (e : Engine) : Option GameData :=
  e.game.map (fun g => g.state.gameData)

/-- Identity choice oracle for the shuffle: every draw swaps an index with
itself, so the generated turn order keeps join order. -/
def idRand : Nat → Nat := fun i => i

/-- A capacity-3 session with minPlayers 2. -/
def cfg3 : GameConfig :=
  { minPlayers := 2, maxPlayers := some 3, turnTimeLimit := some 1000 }

/-- Concrete trace: create, add A, B, C, start, then B (not the current
holder) leaves. -/
def traceE0 : Engine := createGame cfg3 0

def traceE1 : Engine := (addPlayer baseHooks idRand traceE0 1 ⟨"A", "A"⟩).2

def traceE2 : Engine := (addPlayer baseHooks idRand traceE1 2 ⟨"B", "B"⟩).2

def traceE3 : Engine := (addPlayer baseHooks idRand traceE2 3 ⟨"C", "C"⟩).2

def traceE4 : Engine := (startGame baseHooks idRand traceE3 4).2

def traceE5 : Engine := (removePlayer traceE4 5 "B").2

/-- A capacity-2 session with minPlayers 2. -/
def cfg2 : GameConfig :=
  { minPlayers := 2, maxPlayers := some 2, turnTimeLimit := some 1000 }

/-- Concrete two-player session: create, add A and B, start. -/
def twoE0 : Engine := createGame cfg2 0

def twoE1 : Engine := (addPlayer baseHooks idRand twoE0 1 ⟨"A", "A"⟩).2

def twoE2 : Engine := (addPlayer baseHooks idRand twoE1 2 ⟨"B", "B"⟩).2

def twoE3 : Engine := (startGame baseHooks idRand twoE2 3).2

/-- Fallback Game value making projections of optional sessions total. -/
def dummyGame : Game :=
  { config := { minPlayers := 0, maxPlayers := none, turnTimeLimit := none }
    state :=
      { status := GameStatus.waiting
        players := []
        currentTurn := none
        turnOrder := []
        gameData := []
        createdAt := 0
        updatedAt := 0
        startedAt := none
        endedAt := none
        endReason := none
        winner := none }
    maxPlayers := 0
    turnTimeLimit := 0 }

/-- The session record of twoE1. -/
def twoG1 : Game := twoE1.game.getD dummyGame

/-- The session record of twoE2. -/
def twoG2 : Game := twoE2.game.getD dummyGame

/-- The session record of twoE3. -/
def twoG3 : Game := twoE3.game.getD dummyGame

/-- The session record of traceE3. -/
def traceG3 : Game := traceE3.game.getD dummyGame

/-- Three join requests (the third exceeds the capacity-2 session). -/
def threeReqs : List (Nat × PlayerInfo) :=
  [(1, ⟨"A", "A"⟩), (2, ⟨"B", "B"⟩), (3, ⟨"C", "C"⟩)]

/-- The session record after folding threeReqs over a fresh session. -/
def threeAddsG : Game :=
  (applyAddPlayers baseHooks idRand (createGame cfg2 0) threeReqs).game.getD dummyGame

/-- The gameData projection getGameState builds on the returned copy: the
filter hook applied for a truthy (non-empty) viewer identifier, the stored
payload otherwise. -/
def viewFilter (h : GameHooks) (d : GameData) (viewer : Option String) : GameData :=
  match viewer with
  | some pid => if pid = "" then d else h.filterPrivateData d pid
  | none => d

end TurnEngine

namespace TurnEngine

/-! ### List lemmas for the Fisher-Yates shuffle -/

theorem cons_set_perm {t : List String} {m : Nat} {y : String} (a : String)
    (hy : t.get? m = some y) : (y :: t.set m a).Perm (a :: t) := by
  induction t generalizing m with
  | nil => simp at hy
  | cons b t ih =>
    cases m with
    | zero =>
      simp only [List.get?] at hy
      cases hy
      simpa using List.Perm.swap a y t
    | succ m =>
      simp only [List.get?] at hy
      have h1 : (y :: b :: t.set m a).Perm (b :: y :: t.set m a) :=
        List.Perm.swap b y (t.set m a)
      have h2 : (b :: y :: t.set m a).Perm (b :: a :: t) :=
        List.Perm.cons b (ih hy)
      have h3 : (b :: a :: t).Perm (a :: b :: t) := List.Perm.swap a b t
      simpa [List.set] using (h1.trans h2).trans h3

theorem set_set_perm {l : List String} {i j : Nat} {x y : String}
    (hx : l.get? i = some x) (hy : l.get? j = some y) :
    ((l.set i y).set j x).Perm l := by
  induction l generalizing i j with
  | nil => simp at hx
  | cons a t ih =>
    cases i with
    | zero =>
      simp only [List.get?] at hx
      cases hx
      cases j with
      | zero =>
        simp only [List.get?] at hy
        cases hy
        simp [List.set]
      | succ m =>
        simp only [List.get?] at hy
        simpa [List.set] using cons_set_perm x hy
    | succ n =>
      simp only [List.get?] at hx
      cases j with
      | zero =>
        simp only [List.get?] at hy
        cases hy
        simpa [List.set] using cons_set_perm y hx
      | succ m =>
        simp only [List.get?] at hy
        simpa [List.set] using List.Perm.cons a (ih hx hy)

theorem listSwap_perm (l : List String) (i j : Nat) : (listSwap l i j).Perm l := by
  unfold listSwap
  split
  case h_1 x y hx hy => exact set_set_perm hx hy
  case h_2 => exact List.Perm.refl l

theorem fyLoop_perm (rand : Nat → Nat) (i : Nat) (l : List String) :
    (fyLoop rand i l).Perm l := by
  induction i generalizing l with
  | zero => exact List.Perm.refl l
  | succ i ih =>
    exact (ih (listSwap l (i + 1) (rand (i + 1) % (i + 2)))).trans
      (listSwap_perm l (i + 1) (rand (i + 1) % (i + 2)))

theorem generateTurnOrder_perm (rand : Nat → Nat) (players : List GamePlayer) :
    (generateTurnOrder rand players).Perm (players.map (fun p => p.id)) :=
  fyLoop_perm rand _ _

end TurnEngine

namespace TurnEngine

/-! ### Structural lemmas about the engine operations -/

theorem setTurnTimer_game (e : Engine) : (setTurnTimer e).2.game = e.game := rfl

theorem startTurn_game (e : Engine) : (startTurn e).2.game = e.game := by
  unfold startTurn
  split
  · rfl
  · split
    · rfl
    · rfl

theorem nextTurn_of_none {e : Engine} (h : e.game = none) : nextTurn e = (Except.ok (), e) := by
  unfold nextTurn
  rw [h]

theorem nextTurn_game_some {e : Engine} {g : Game} (h : e.game = some g) :
    (nextTurn e).2.game = some { g with state :=
      { g.state with currentTurn := nextTurnValue g.state.turnOrder g.state.currentTurn } } := by
  unfold nextTurn
  rw [h]
  exact startTurn_game _

theorem nextTurnValue_mem {ord : List String} {cur : Option String} {c : String}
    (h : nextTurnValue ord cur = some c) : c ∈ ord := by
  unfold nextTurnValue at h
  split at h
  · cases h
  · exact List.get?_mem h

theorem findIdx?_get?_of_nodup {l : List String} {m : Nat} {c : String}
    (hnd : l.Nodup) (hm : l.get? m = some c) :
    l.findIdx? (fun x => x == c) = some m := by
  induction l generalizing m with
  | nil => simp at hm
  | cons a t ih =>
    cases m with
    | zero =>
      simp only [List.get?] at hm
      cases hm
      simp [List.findIdx?_cons]
    | succ m =>
      simp only [List.get?] at hm
      have hat : a ∉ t := (List.nodup_cons.mp hnd).1
      have hct : c ∈ t := List.get?_mem hm
      have hne : (a == c) = false := by
        rw [beq_eq_false_iff_ne]
        intro h
        exact hat (h ▸ hct)
      rw [List.findIdx?_cons, hne]
      simp [List.findIdx?_succ, ih (List.nodup_cons.mp hnd).2 hm]

theorem nextTurnValue_get {ord : List String} {m : Nat} {c : String}
    (hnd : ord.Nodup) (hm : ord.get? m = some c) :
    nextTurnValue ord (some c) = ord.get? ((m + 1) % ord.length) := by
  have hlen : ord.length ≠ 0 := by
    intro h0
    rw [List.get?_eq_none.mpr (by omega)] at hm
    cases hm
  unfold nextTurnValue
  rw [if_neg hlen]
  simp only [findIdx?_get?_of_nodup hnd hm]

end TurnEngine

namespace TurnEngine

/-! ### Branch shape lemmas for the operations -/

theorem startGame_of_none {e : Engine} (hg : e.game = none)
    (h : GameHooks) (rand : Nat → Nat) (now : Nat) :
    startGame h rand e now = (Except.error (JsError.error "Game not found"), e) := by
  unfold startGame
  rw [hg]

theorem startGame_not_waiting {e : Engine} {g : Game} (hg : e.game = some g)
    (hw : ¬ g.state.status = GameStatus.waiting)
    (h : GameHooks) (rand : Nat → Nat) (now : Nat) :
    startGame h rand e now =
      (Except.error (JsError.error "Game is not in waiting status"), e) := by
  unfold startGame
  rw [hg]
  simp [hw]

theorem startGame_not_enough {e : Engine} {g : Game} (hg : e.game = some g)
    (hw : g.state.status = GameStatus.waiting)
    (hmin : g.state.players.length < g.config.minPlayers)
    (h : GameHooks) (rand : Nat → Nat) (now : Nat) :
    startGame h rand e now =
      (Except.error (JsError.error "Not enough players to start game"), e) := by
  unfold startGame
  rw [hg]
  simp [hw, hmin]

theorem startGame_success_game {e : Engine} {g : Game} (hg : e.game = some g)
    (hw : g.state.status = GameStatus.waiting)
    (hmin : g.config.minPlayers ≤ g.state.players.length)
    (h : GameHooks) (rand : Nat → Nat) (now : Nat) :
    ∃ g2, (startGame h rand e now).2.game = some g2 ∧
      g2.state.turnOrder = generateTurnOrder rand g.state.players ∧
      g2.state.currentTurn = (generateTurnOrder rand g.state.players).get? 0 ∧
      g2.state.players = g.state.players ∧
      g2.state.status = GameStatus.active ∧
      g2.maxPlayers = g.maxPlayers ∧
      g2.config = g.config := by
  unfold startGame
  rw [hg]
  dsimp only
  rw [if_neg (by simp [hw]), if_neg (by omega)]
  exact ⟨_, startTurn_game _, rfl, rfl, rfl, rfl, rfl, rfl⟩

theorem endGame_of_none {e : Engine} (hg : e.game = none)
    (now : Nat) (reason winner : Option String) :
    endGame e now reason winner = (Except.error (JsError.error "Game not found"), e) := by
  unfold endGame
  rw [hg]

theorem endGame_of_some {e : Engine} {g : Game} (hg : e.game = some g)
    (now : Nat) (reason winner : Option String) :
    endGame e now reason winner =
      (Except.ok (), clearGameTimers { e with game := some { g with state :=
        { g.state with
          status := GameStatus.ended
          endedAt := some now
          endReason := reason
          winner := winner
          updatedAt := now } } }) := by
  unfold endGame
  rw [hg]

theorem processAction_of_none {e : Engine} (hg : e.game = none)
    (h : GameHooks) (now : Nat) (pid : Option String) (a : Action) :
    processAction h e now pid a = (Except.error (JsError.error "Game not found"), e) := by
  unfold processAction
  rw [hg]

theorem processAction_not_active {e : Engine} {g : Game} (hg : e.game = some g)
    (hst : ¬ g.state.status = GameStatus.active)
    (h : GameHooks) (now : Nat) (pid : Option String) (a : Action) :
    processAction h e now pid a = (Except.error (JsError.error "Game is not active"), e) := by
  unfold processAction
  rw [hg]
  simp [hst]

theorem processAction_not_turn {e : Engine} {g : Game} (hg : e.game = some g)
    (hst : g.state.status = GameStatus.active)
    (hct : ¬ g.state.currentTurn = pid)
    (h : GameHooks) (now : Nat) (a : Action) :
    processAction h e now pid a = (Except.error (JsError.error "Not your turn"), e) := by
  unfold processAction
  rw [hg]
  simp [hst, hct]

end TurnEngine

namespace TurnEngine

/-! ### Preservation of the currentTurn-in-turnOrder invariant -/

theorem nextTurn_inv {e : Engine} (hinv : CurrentTurnInOrder e) :
    CurrentTurnInOrder (nextTurn e).2 := by
  cases hg : e.game with
  | none =>
    rw [nextTurn_of_none hg]
    exact hinv
  | some g =>
    intro g' c h1 h2
    rw [nextTurn_game_some hg] at h1
    cases Option.some.inj h1
    exact nextTurnValue_mem h2

theorem endGame_inv {e : Engine} (hinv : CurrentTurnInOrder e)
    (now : Nat) (reason winner : Option String) :
    CurrentTurnInOrder (endGame e now reason winner).2 := by
  cases hg : e.game with
  | none =>
    rw [endGame_of_none hg]
    exact hinv
  | some g =>
    rw [endGame_of_some hg]
    intro g' c h1 h2
    cases Option.some.inj h1
    exact hinv g c hg h2

theorem startGame_inv {e : Engine} (hinv : CurrentTurnInOrder e)
    (h : GameHooks) (rand : Nat → Nat) (now : Nat) :
    CurrentTurnInOrder (startGame h rand e now).2 := by
  cases hg : e.game with
  | none =>
    rw [startGame_of_none hg]
    exact hinv
  | some g =>
    by_cases hw : g.state.status = GameStatus.waiting
    · by_cases hmin : g.config.minPlayers ≤ g.state.players.length
      · obtain ⟨g2, hgame, ho, hc, _, _, _, _⟩ := startGame_success_game hg hw hmin h rand now
        intro g' c h1 h2
        rw [hgame] at h1
        cases Option.some.inj h1
        rw [hc] at h2
        rw [ho]
        exact List.get?_mem h2
      · rw [startGame_not_enough hg hw (by omega)]
        exact hinv
    · rw [startGame_not_waiting hg hw]
      exact hinv

theorem processAction_inv {e : Engine} (hinv : CurrentTurnInOrder e)
    (h : GameHooks) (now : Nat) (pid : Option String) (a : Action) :
    CurrentTurnInOrder (processAction h e now pid a).2 := by
  cases hg : e.game with
  | none =>
    rw [processAction_of_none hg]
    exact hinv
  | some g =>
    by_cases hst : g.state.status = GameStatus.active
    · by_cases hct : g.state.currentTurn = pid
      · unfold processAction
        rw [hg]
        dsimp only
        rw [if_neg (by simp [hst]), if_neg (by simp [hct])]
        by_cases hv : (h.validateAction g pid a).valid = true
        · rw [if_neg (by simp [hv])]
          have hinv1 : CurrentTurnInOrder { e with game := some { g with state :=
              { g.state with
                gameData := (h.executeAction g pid a).gameData
                updatedAt := now } } } := by
            intro g' c h1 h2
            cases Option.some.inj h1
            exact hinv g c hg h2
          split
          · exact endGame_inv hinv1 now _ _
          · exact nextTurn_inv hinv1
        · rw [if_pos (by simp [hv])]
          exact hinv
      · rw [processAction_not_turn hg hst hct]
        exact hinv
    · rw [processAction_not_active hg hst]
      exact hinv

theorem checkGameStart_inv {e : Engine} (hinv : CurrentTurnInOrder e)
    (h : GameHooks) (rand : Nat → Nat) (now : Nat) :
    CurrentTurnInOrder (checkGameStart h rand e now).2 := by
  unfold checkGameStart
  cases hg : e.game with
  | none => exact hinv
  | some g =>
    dsimp only
    split
    · exact startGame_inv hinv h rand now
    · exact hinv

theorem addPlayer_inv {e : Engine} (hinv : CurrentTurnInOrder e)
    (h : GameHooks) (rand : Nat → Nat) (now : Nat) (p : PlayerInfo) :
    CurrentTurnInOrder (addPlayer h rand e now p).2 := by
  unfold addPlayer
  cases hg : e.game with
  | none => exact hinv
  | some g =>
    dsimp only
    split
    · exact hinv
    · split
      · exact hinv
      · have hinv1 : CurrentTurnInOrder { e with game := some { g with state :=
            { g.state with
              players := g.state.players ++ [⟨p.id, p.name, false, true, now, now⟩]
              updatedAt := now } } } := by
          intro g' c h1 h2
          cases Option.some.inj h1
          exact hinv g c hg h2
        split
        · exact checkGameStart_inv hinv1 h rand now
        · exact hinv1

theorem handleTurnTimeout_inv {e : Engine} (hinv : CurrentTurnInOrder e)
    (h : GameHooks) (now : Nat) :
    CurrentTurnInOrder (handleTurnTimeout h e now).2 := by
  unfold handleTurnTimeout
  cases hg : e.game with
  | none => exact hinv
  | some g =>
    dsimp only
    cases hd : h.getDefaultAction g g.state.currentTurn with
    | some a => exact processAction_inv hinv h now _ _
    | none => exact nextTurn_inv hinv

theorem handleGameTimeout_inv {e : Engine} (hinv : CurrentTurnInOrder e)
    (now : Nat) : CurrentTurnInOrder (handleGameTimeout e now).2 :=
  endGame_inv hinv now (some "timeout") none

end TurnEngine

namespace TurnEngine

theorem inv_transport {e e' : Engine} (hinv : CurrentTurnInOrder e) (h2 : e = e') :
    CurrentTurnInOrder e' := h2 ▸ hinv

theorem removePlayer_inv {e : Engine} (hinv : CurrentTurnInOrder e)
    (now : Nat) (pid : String) :
    CurrentTurnInOrder (removePlayer e now pid).2 := by
  unfold removePlayer
  cases hg : e.game with
  | none => exact hinv
  | some g =>
    dsimp only
    cases hidx : g.state.players.findIdx? (fun q => q.id == pid) with
    | none => exact hinv
    | some playerIndex =>
      dsimp only
      have hinv1 : CurrentTurnInOrder { e with game := some { g with state :=
          { g.state with
            players := g.state.players.eraseIdx playerIndex
            updatedAt := now } } } := by
        intro g' c h1 h2
        cases Option.some.inj h1
        exact hinv g c hg h2
      by_cases hcond : g.state.status = GameStatus.active ∧ g.state.currentTurn = some pid
      · rw [if_pos hcond]
        have hinv2 := nextTurn_inv hinv1
        split
        · exact hinv2
        · cases hg2 : (nextTurn _).2.game with
          | none => exact hinv2
          | some g2 =>
            dsimp only
            split
            · exact endGame_inv hinv2 now _ _
            · exact hinv2
      · rw [if_neg hcond]
        dsimp only
        split
        · exact endGame_inv hinv1 now _ _
        · exact hinv1

end TurnEngine

namespace TurnEngine

theorem step_inv {h : GameHooks} {e e' : Engine} (hs : EngineStep h e e')
    (hinv : CurrentTurnInOrder e) : CurrentTurnInOrder e' := by
  cases hs with
  | ofAddPlayer rand now p => exact addPlayer_inv hinv h rand now p
  | ofRemovePlayer now pid => exact removePlayer_inv hinv now pid
  | ofStartGame rand now => exact startGame_inv hinv h rand now
  | ofProcessAction now pid a => exact processAction_inv hinv h now pid a
  | ofNextTurn => exact nextTurn_inv hinv
  | ofHandleTurnTimeout now => exact handleTurnTimeout_inv hinv h now
  | ofHandleGameTimeout now => exact handleGameTimeout_inv hinv now
  | ofEndGame now reason winner => exact endGame_inv hinv now reason winner

theorem createGame_inv (cfg : GameConfig) (now : Nat) :
    CurrentTurnInOrder (createGame cfg now) := by
  intro g c h1 h2
  cases Option.some.inj h1
  cases h2

/-- Claim C1 (amended): from any freshly created session, along any sequence
of engine operations (addPlayer, removePlayer, startGame, processAction,
nextTurn, the timeout handlers, endGame), whenever currentTurn is non-null
it is an element of turnOrder. Membership in players is NOT maintained:
see the counterexample. -/
theorem c1_currentTurn_in_turnOrder (h : GameHooks) (cfg : GameConfig)
    (t0 : Nat) (e : Engine) (hr : ReachableFrom h (createGame cfg t0) e) :
    CurrentTurnInOrder e := by
  induction hr with
  | refl => exact createGame_inv cfg t0
  | tail _ hs ih => exact step_inv hs ih

/-- Witness for c1_currentTurn_in_turnOrder: the concrete two-player session
reached by add A, add B, start. -/
theorem c1_currentTurn_in_turnOrder_witness : CurrentTurnInOrder twoE3 :=
  c1_currentTurn_in_turnOrder baseHooks cfg2 0 twoE3
    (Relation.ReflTransGen.tail
      (Relation.ReflTransGen.tail
        (Relation.ReflTransGen.tail Relation.ReflTransGen.refl
          (EngineStep.ofAddPlayer twoE0 idRand 1 ⟨"A", "A"⟩))
        (EngineStep.ofAddPlayer twoE1 idRand 2 ⟨"B", "B"⟩))
      (EngineStep.ofStartGame twoE2 idRand 3))

/-- Claim C1 counterexample: in the 3-player session [A, B, C] with
turnOrder [A, B, C] and currentTurn A, after the non-current player B
leaves, the next turn advance assigns currentTurn = B even though B is no
longer a participant — rotation does not skip the departed identifier. -/
theorem c1_counterexample :
    engineCurrentTurn (nextTurn traceE5).2 = some "B" ∧
    enginePlayerIds (nextTurn traceE5).2 = some ["A", "C"] ∧
    ("B" ∈ (["A", "C"] : List String)) = False := by
  refine ⟨by decide, by decide, by simp⟩

end TurnEngine

namespace TurnEngine

/-! ### Turn rotation (claim C6) -/

theorem nextTurn_advance {e : Engine} {g : Game} {m : Nat} {c : String}
    (hg : e.game = some g) (hnd : g.state.turnOrder.Nodup)
    (hm : g.state.turnOrder.get? m = some c)
    (hc : g.state.currentTurn = some c) :
    ∃ g', (nextTurn e).2.game = some g' ∧
      g'.state.turnOrder = g.state.turnOrder ∧
      g'.state.currentTurn =
        g.state.turnOrder.get? ((m + 1) % g.state.turnOrder.length) := by
  refine ⟨_, nextTurn_game_some hg, rfl, ?_⟩
  show nextTurnValue g.state.turnOrder g.state.currentTurn = _
  rw [hc]
  exact nextTurnValue_get hnd hm

theorem iterateNextTurn_rotation {g : Game} {e : Engine}
    (hg : e.game = some g) (hnd : g.state.turnOrder.Nodup) :
    ∀ (n m : Nat), m < g.state.turnOrder.length →
      g.state.currentTurn = g.state.turnOrder.get? m →
      ∃ g', (iterateNextTurn e n).game = some g' ∧
        g'.state.turnOrder = g.state.turnOrder ∧
        g'.state.currentTurn =
          g.state.turnOrder.get? ((m + n) % g.state.turnOrder.length) := by
  intro n
  induction n generalizing e g with
  | zero =>
    intro m hm hcur
    refine ⟨g, hg, rfl, ?_⟩
    rw [Nat.add_zero, Nat.mod_eq_of_lt hm]
    exact hcur
  | succ n ih =>
    intro m hm hcur
    have hlen : 0 < g.state.turnOrder.length := Nat.lt_of_le_of_lt (Nat.zero_le m) hm
    obtain ⟨c, hcs⟩ : ∃ c, g.state.turnOrder.get? m = some c := by
      cases hx : g.state.turnOrder.get? m with
      | none =>
        have := List.get?_eq_none.mp hx
        omega
      | some c => exact ⟨c, rfl⟩
    obtain ⟨g1, hg1, ho1, hc1⟩ := nextTurn_advance hg hnd hcs (hcur.trans hcs)
    have hnd1 : g1.state.turnOrder.Nodup := by rw [ho1]; exact hnd
    have hm1 : (m + 1) % g.state.turnOrder.length < g1.state.turnOrder.length := by
      rw [ho1]
      exact Nat.mod_lt _ hlen
    have hcur1 : g1.state.currentTurn =
        g1.state.turnOrder.get? ((m + 1) % g.state.turnOrder.length) := by
      rw [ho1]
      exact hc1
    obtain ⟨g', hgn, hon, hcn⟩ := ih hg1 hnd1 ((m + 1) % g.state.turnOrder.length)
      hm1 hcur1
    refine ⟨g', hgn, by rw [hon, ho1], ?_⟩
    rw [hcn, ho1]
    have : ((m + 1) % g.state.turnOrder.length + n) % g.state.turnOrder.length =
        (m + (n + 1)) % g.state.turnOrder.length := by
      rw [Nat.mod_add_mod]
      ring_nf
    rw [this]

/-- Claim C6: with a fixed non-empty duplicate-free turnOrder of length k and
currentTurn initially at turnOrder[0], after n nextTurn advances currentTurn
equals turnOrder[n mod k] (turn orders produced by the engine are
duplicate-free since participants are unique by identifier). -/
theorem c6_rotation (e : Engine) (g : Game) (n : Nat)
    (hg : e.game = some g) (hnd : g.state.turnOrder.Nodup)
    (hne : g.state.turnOrder ≠ [])
    (h0 : g.state.currentTurn = g.state.turnOrder.get? 0) :
    ∃ g', (iterateNextTurn e n).game = some g' ∧
      g'.state.turnOrder = g.state.turnOrder ∧
      g'.state.currentTurn =
        g.state.turnOrder.get? (n % g.state.turnOrder.length) := by
  have hlen : 0 < g.state.turnOrder.length := List.length_pos.mpr hne
  obtain ⟨g', h1, h2, h3⟩ := iterateNextTurn_rotation hg hnd n 0 hlen h0
  refine ⟨g', h1, h2, ?_⟩
  rw [h3]
  norm_num

/-- Witness for c6_rotation: the concrete two-player session, three advances
land on turnOrder[3 mod 2] = turnOrder[1]. -/
theorem c6_rotation_witness :
    ∃ g', (iterateNextTurn twoE3 3).game = some g' ∧
      g'.state.turnOrder = twoG3.state.turnOrder ∧
      g'.state.currentTurn =
        twoG3.state.turnOrder.get? (3 % twoG3.state.turnOrder.length) :=
  c6_rotation twoE3 twoG3 3 (by decide) (by decide) (by decide) (by decide)

end TurnEngine

namespace TurnEngine

/-! ### startGame and processAction behavior (claims C2, C4, C5) -/

theorem find?_of_mem_ids {players : List GamePlayer} {c : String}
    (hm : c ∈ players.map (fun p => p.id)) :
    ∃ p, players.find? (fun q => some q.id == some c) = some p := by
  have h1 : (players.find? (fun q => some q.id == some c)).isSome = true := by
    rw [List.find?_isSome]
    obtain ⟨p, hp, hpc⟩ := List.mem_map.mp hm
    exact ⟨p, hp, by simp [hpc]⟩
  exact Option.isSome_iff_exists.mp h1

/-- Claim C2 (refuted by the code): on a waiting session with at least
minPlayers participants (population nonzero), startGame does NOT complete
and does NOT arm the turn timer: startTurn finds the first turn holder and
calls setTurnTimer, whose body dereferences the undefined `game` binding,
so a ReferenceError propagates out of startGame with the timer left
disarmed. -/
theorem c2_startGame_raises (h : GameHooks) (rand : Nat → Nat) (now : Nat)
    (e : Engine) (g : Game) (hg : e.game = some g)
    (hw : g.state.status = GameStatus.waiting)
    (hmin : g.config.minPlayers ≤ g.state.players.length)
    (hne : g.state.players ≠ []) :
    (startGame h rand e now).1 =
      Except.error (JsError.referenceError "game is not defined") ∧
    (startGame h rand e now).2.turnTimerArmed = false := by
  unfold startGame
  rw [hg]
  dsimp only
  rw [if_neg (by simp [hw]), if_neg (by omega)]
  have hperm := generateTurnOrder_perm rand g.state.players
  have hpos : 0 < (generateTurnOrder rand g.state.players).length := by
    rw [hperm.length_eq, List.length_map]
    exact List.length_pos.mpr hne
  obtain ⟨c, hc⟩ : ∃ c, (generateTurnOrder rand g.state.players).get? 0 = some c := by
    cases hx : (generateTurnOrder rand g.state.players).get? 0 with
    | none =>
      have := List.get?_eq_none.mp hx
      omega
    | some c => exact ⟨c, rfl⟩
  have hcm : c ∈ g.state.players.map (fun p => p.id) :=
    hperm.subset (List.get?_mem hc)
  obtain ⟨p, hp⟩ := find?_of_mem_ids hcm
  unfold startTurn
  dsimp only
  rw [hc, hp]
  exact ⟨rfl, rfl⟩

/-- Witness for c2_startGame_raises: the waiting 3-player session. -/
theorem c2_startGame_raises_witness :
    (startGame baseHooks idRand traceE3 4).1 =
      Except.error (JsError.referenceError "game is not defined") ∧
    (startGame baseHooks idRand traceE3 4).2.turnTimerArmed = false :=
  c2_startGame_raises baseHooks idRand 4 traceE3 traceG3 (by decide) (by decide)
    (by decide) (by decide)

/-- Claim C4: startGame on a waiting session with population at least
minPlayers sets turnOrder to a permutation of exactly the current
participant identifiers (same multiset), sets currentTurn to turnOrder[0],
and leaves the participant list itself unchanged. -/
theorem c4_startGame_permutation (h : GameHooks) (rand : Nat → Nat) (now : Nat)
    (e : Engine) (g : Game) (hg : e.game = some g)
    (hw : g.state.status = GameStatus.waiting)
    (hmin : g.config.minPlayers ≤ g.state.players.length) :
    ∃ g2, (startGame h rand e now).2.game = some g2 ∧
      g2.state.turnOrder.Perm (g.state.players.map (fun p => p.id)) ∧
      g2.state.currentTurn = g2.state.turnOrder.get? 0 ∧
      g2.state.players = g.state.players := by
  obtain ⟨g2, h1, h2, h3, h4, _, _, _⟩ := startGame_success_game hg hw hmin h rand now
  refine ⟨g2, h1, ?_, ?_, h4⟩
  · rw [h2]
    exact generateTurnOrder_perm rand g.state.players
  · rw [h3, h2]

/-- Witness for c4_startGame_permutation at the waiting 3-player session. -/
theorem c4_startGame_permutation_witness :
    ∃ g2, (startGame baseHooks idRand traceE3 4).2.game = some g2 ∧
      g2.state.turnOrder.Perm (traceG3.state.players.map (fun p => p.id)) ∧
      g2.state.currentTurn = g2.state.turnOrder.get? 0 ∧
      g2.state.players = traceG3.state.players :=
  c4_startGame_permutation baseHooks idRand 4 traceE3 traceG3 (by decide)
    (by decide) (by decide)

/-- Claim C5: on an active session, processAction by a caller other than the
current turn holder fails with the Not-your-turn error and leaves the whole
engine state (session state included) unchanged. -/
theorem c5_processAction_not_your_turn (h : GameHooks) (now : Nat)
    (e : Engine) (g : Game) (s : String) (a : Action)
    (hg : e.game = some g)
    (hst : g.state.status = GameStatus.active)
    (hct : ¬ g.state.currentTurn = some s) :
    processAction h e now (some s) a =
      (Except.error (JsError.error "Not your turn"), e) :=
  processAction_not_turn hg hst hct h now a

/-- Witness for c5_processAction_not_your_turn on the active two-player
session with an unrelated caller. -/
theorem c5_processAction_not_your_turn_witness :
    processAction baseHooks twoE3 5 (some "ZZZ") [] =
      (Except.error (JsError.error "Not your turn"), twoE3) :=
  c5_processAction_not_your_turn baseHooks 5 twoE3 twoG3 "ZZZ" [] (by decide)
    (by decide) (by decide)

end TurnEngine

namespace TurnEngine

/-! ### Ending twice (claim C3) -/

/-- Claim C3 (amended): a second endGame call on the already-ended session
(still within the retention window) does not throw, and with the same
reason and winner it preserves status, endReason and winner; but it is not
a strict no-op: endedAt (and updatedAt) are overwritten with the second
call's clock reading. -/
theorem c3_endGame_second_call (e : Engine) (now1 now2 : Nat)
    (reason winner : Option String) (g : Game) (hg : e.game = some g) :
    (endGame e now1 reason winner).1 = Except.ok () ∧
    (endGame (endGame e now1 reason winner).2 now2 reason winner).1 = Except.ok () ∧
    (∀ g1 g2,
      (endGame e now1 reason winner).2.game = some g1 →
      (endGame (endGame e now1 reason winner).2 now2 reason winner).2.game = some g2 →
      g2.state.status = g1.state.status ∧
      g2.state.endReason = g1.state.endReason ∧
      g2.state.winner = g1.state.winner ∧
      g1.state.endedAt = some now1 ∧
      g2.state.endedAt = some now2) := by
  rw [endGame_of_some hg]
  dsimp only
  rw [endGame_of_some rfl]
  refine ⟨rfl, rfl, ?_⟩
  intro g1 g2 hg1 hg2
  cases Option.some.inj hg1
  cases Option.some.inj hg2
  exact ⟨rfl, rfl, rfl, rfl, rfl⟩

/-- Witness for c3_endGame_second_call on the concrete two-player session. -/
theorem c3_endGame_second_call_witness :
    (endGame twoE3 10 (some "r") (some "A")).1 = Except.ok () ∧
    (endGame (endGame twoE3 10 (some "r") (some "A")).2 20
      (some "r") (some "A")).1 = Except.ok () := by
  have h := c3_endGame_second_call twoE3 10 20 (some "r") (some "A") twoG3 (by decide)
  exact ⟨h.1, h.2.1⟩

/-- Claim C3 counterexample: the second endGame call is not a no-op and the
terminal state after two calls differs from the state after one call: the
endedAt stamp is overwritten with the second call's time. -/
theorem c3_counterexample :
    engineEndedAt (endGame (endGame twoE3 1 (some "r") none).2 2 (some "r") none).2 ≠
      engineEndedAt (endGame twoE3 1 (some "r") none).2 := by
  decide

end TurnEngine

namespace TurnEngine

/-! ### Capacity (claim C7) -/

theorem startGame_cap {e : Engine} (hc : PlayersWithinCap e)
    (h : GameHooks) (rand : Nat → Nat) (now : Nat) :
    PlayersWithinCap (startGame h rand e now).2 := by
  cases hg : e.game with
  | none =>
    rw [startGame_of_none hg]
    exact hc
  | some g =>
    by_cases hw : g.state.status = GameStatus.waiting
    · by_cases hmin : g.config.minPlayers ≤ g.state.players.length
      · obtain ⟨g2, h1, _, _, h4, _, h6, _⟩ := startGame_success_game hg hw hmin h rand now
        intro g' hg'
        rw [h1] at hg'
        cases Option.some.inj hg'
        rw [h4, h6]
        exact hc g hg
      · rw [startGame_not_enough hg hw (by omega)]
        exact hc
    · rw [startGame_not_waiting hg hw]
      exact hc

theorem checkGameStart_cap {e : Engine} (hc : PlayersWithinCap e)
    (h : GameHooks) (rand : Nat → Nat) (now : Nat) :
    PlayersWithinCap (checkGameStart h rand e now).2 := by
  unfold checkGameStart
  cases hg : e.game with
  | none => exact hc
  | some g =>
    dsimp only
    split
    · exact startGame_cap hc h rand now
    · exact hc

theorem addPlayer_cap {e : Engine} (hc : PlayersWithinCap e)
    (h : GameHooks) (rand : Nat → Nat) (now : Nat) (p : PlayerInfo) :
    PlayersWithinCap (addPlayer h rand e now p).2 := by
  unfold addPlayer
  cases hg : e.game with
  | none => exact hc
  | some g =>
    dsimp only
    split
    case isTrue => exact hc
    case isFalse hfull =>
      split
      · exact hc
      · have hc1 : PlayersWithinCap { e with game := some { g with state :=
            { g.state with
              players := g.state.players ++ [⟨p.id, p.name, false, true, now, now⟩]
              updatedAt := now } } } := by
          intro g' hg'
          cases Option.some.inj hg'
          simp only [List.length_append, List.length_cons, List.length_nil]
          omega
        split
        · exact checkGameStart_cap hc1 h rand now
        · exact hc1

theorem applyAddPlayers_cap {e : Engine} (hc : PlayersWithinCap e)
    (h : GameHooks) (rand : Nat → Nat) (reqs : List (Nat × PlayerInfo)) :
    PlayersWithinCap (applyAddPlayers h rand e reqs) := by
  induction reqs generalizing e with
  | nil => exact hc
  | cons r rest ih =>
    cases r with
    | mk now p => exact ih (addPlayer_cap hc h rand now p)

theorem createGame_cap (cfg : GameConfig) (t0 : Nat) :
    PlayersWithinCap (createGame cfg t0) := by
  intro g hg
  cases Option.some.inj hg
  exact Nat.zero_le _

theorem addPlayer_full {e : Engine} {g : Game} (hg : e.game = some g)
    (hfull : g.maxPlayers ≤ g.state.players.length)
    (h : GameHooks) (rand : Nat → Nat) (now : Nat) (p : PlayerInfo) :
    addPlayer h rand e now p = (Except.error (JsError.error "Game is full"), e) := by
  unfold addPlayer
  rw [hg]
  dsimp only
  rw [if_pos hfull]

theorem addPlayer_dup {e : Engine} {g : Game} {p : PlayerInfo} (hg : e.game = some g)
    (hnf : g.state.players.length < g.maxPlayers)
    (hdup : ∃ q ∈ g.state.players, q.id = p.id)
    (h : GameHooks) (rand : Nat → Nat) (now : Nat) :
    addPlayer h rand e now p =
      (Except.error (JsError.error "Player already in game"), e) := by
  unfold addPlayer
  rw [hg]
  dsimp only
  rw [if_neg (by omega)]
  obtain ⟨q, hq, hqid⟩ := hdup
  rw [if_pos ?hs]
  case hs =>
    rw [List.find?_isSome]
    exact ⟨q, hq, by simp [hqid]⟩

/-- Claim C7: along any sequence of addPlayer calls on a fresh session,
players.length never exceeds the session's configured maximum; a call at
capacity fails with the Game-is-full error adding no one, and a call with
an already-present identifier (below capacity) fails with the
Player-already-in-game error adding no one. -/
theorem c7_addPlayer_capacity (h : GameHooks) (rand : Nat → Nat) :
    (∀ (cfg : GameConfig) (t0 : Nat) (reqs : List (Nat × PlayerInfo)) (g : Game),
      (applyAddPlayers h rand (createGame cfg t0) reqs).game = some g →
      g.state.players.length ≤ g.maxPlayers) ∧
    (∀ (e : Engine) (now : Nat) (p : PlayerInfo) (g : Game),
      e.game = some g → g.maxPlayers ≤ g.state.players.length →
      addPlayer h rand e now p = (Except.error (JsError.error "Game is full"), e)) ∧
    (∀ (e : Engine) (now : Nat) (p : PlayerInfo) (g : Game),
      e.game = some g → g.state.players.length < g.maxPlayers →
      (∃ q ∈ g.state.players, q.id = p.id) →
      addPlayer h rand e now p =
        (Except.error (JsError.error "Player already in game"), e)) := by
  refine ⟨?_, ?_, ?_⟩
  · intro cfg t0 reqs g hg
    exact applyAddPlayers_cap (createGame_cap cfg t0) h rand reqs g hg
  · intro e now p g hg hfull
    exact addPlayer_full hg hfull h rand now p
  · intro e now p g hg hnf hdup
    exact addPlayer_dup hg hnf hdup h rand now

/-- Witness for c7_addPlayer_capacity: three joins against a capacity-2
session stay within the cap; the at-capacity join and the duplicate join
fail with their respective errors and change nothing. -/
theorem c7_addPlayer_capacity_witness :
    threeAddsG.state.players.length ≤ threeAddsG.maxPlayers ∧
    addPlayer baseHooks idRand twoE2 9 ⟨"C", "C"⟩ =
      (Except.error (JsError.error "Game is full"), twoE2) ∧
    addPlayer baseHooks idRand twoE1 9 ⟨"A", "X"⟩ =
      (Except.error (JsError.error "Player already in game"), twoE1) := by
  have h := c7_addPlayer_capacity baseHooks idRand
  refine ⟨h.1 cfg2 0 threeReqs threeAddsG (by decide),
    h.2.1 twoE2 9 ⟨"C", "C"⟩ twoG2 (by decide) (by decide),
    h.2.2 twoE1 9 ⟨"A", "X"⟩ twoG1 (by decide) (by decide) (by decide)⟩

end TurnEngine

namespace TurnEngine

/-! ### Turn-timeout behavior (claims C8 and C9) -/

/-- Claim C8 (amended): errors raised by the timer-driven internal calls are
NOT caught at the timer boundary — handleTurnTimeout has no catch, so they
propagate out of the timer callback. In particular, with no default action
and the next turn holder present, the turn-advance path reaches setTurnTimer
and the ReferenceError escapes the timeout handler itself. -/
theorem c8_timeout_error_propagates (h : GameHooks) (now : Nat)
    (e : Engine) (g : Game) (c : String)
    (hg : e.game = some g)
    (hd : h.getDefaultAction g g.state.currentTurn = none)
    (hnext : nextTurnValue g.state.turnOrder g.state.currentTurn = some c)
    (hpresent : c ∈ g.state.players.map (fun p => p.id)) :
    (handleTurnTimeout h e now).1 =
      Except.error (JsError.referenceError "game is not defined") := by
  unfold handleTurnTimeout
  rw [hg]
  dsimp only
  rw [hd]
  unfold nextTurn
  rw [hg]
  dsimp only
  unfold startTurn
  dsimp only
  rw [hnext]
  obtain ⟨p, hp⟩ := find?_of_mem_ids hpresent
  rw [hp]
  rfl

/-- Witness for c8_timeout_error_propagates on the active two-player
session with the inert base hooks. -/
theorem c8_timeout_error_propagates_witness :
    (handleTurnTimeout baseHooks twoE3 7).1 =
      Except.error (JsError.referenceError "game is not defined") :=
  c8_timeout_error_propagates baseHooks 7 twoE3 twoG3 "B" (by decide) (by decide)
    (by decide) (by decide)

/-- Claim C8 counterexample: on the concrete active two-player session the
turn-timeout handler returns an error (the setTurnTimer ReferenceError)
instead of swallowing it — the error leaves the timer callback. -/
theorem c8_counterexample :
    (handleTurnTimeout baseHooks twoE3 4).1 =
      Except.error (JsError.referenceError "game is not defined") := by
  rfl

/-- Claim C9: on an active two-player session (participants p and q in
either join order, p holding the turn) whose default-action hook returns
null for the current holder, firing the turn timeout switches currentTurn
to the other player and leaves gameData unchanged. -/
theorem c9_forced_skip (h : GameHooks) (now : Nat) (e : Engine) (g : Game)
    (p q : GamePlayer)
    (hg : e.game = some g)
    (_hactive : g.state.status = GameStatus.active)
    (_hplayers : g.state.players = [p, q] ∨ g.state.players = [q, p])
    (hne : p.id ≠ q.id)
    (horder : g.state.turnOrder = [p.id, q.id] ∨ g.state.turnOrder = [q.id, p.id])
    (hcur : g.state.currentTurn = some p.id)
    (hd : h.getDefaultAction g (some p.id) = none) :
    ∃ g', (handleTurnTimeout h e now).2.game = some g' ∧
      g'.state.currentTurn = some q.id ∧
      g'.state.gameData = g.state.gameData := by
  unfold handleTurnTimeout
  rw [hg]
  dsimp only
  rw [hcur, hd]
  refine ⟨_, nextTurn_game_some hg, ?_, rfl⟩
  show nextTurnValue g.state.turnOrder g.state.currentTurn = some q.id
  rw [hcur]
  cases horder with
  | inl h1 =>
    rw [h1]
    rw [nextTurnValue_get (by simp [hne])
      (show ([p.id, q.id] : List String).get? 0 = some p.id from rfl)]
    norm_num
  | inr h2 =>
    rw [h2]
    rw [nextTurnValue_get (by simp [Ne.symm hne])
      (show ([q.id, p.id] : List String).get? 1 = some p.id from rfl)]
    norm_num

/-- Witness for c9_forced_skip on the concrete two-player session. -/
theorem c9_forced_skip_witness :
    ∃ g', (handleTurnTimeout baseHooks twoE3 4).2.game = some g' ∧
      g'.state.currentTurn = some "B" ∧
      g'.state.gameData = twoG3.state.gameData :=
  c9_forced_skip baseHooks 4 twoE3 twoG3
    ⟨"A", "A", false, true, 1, 1⟩ ⟨"B", "B", false, true, 2, 2⟩
    (by decide) (by decide) (by decide) (by decide) (by decide) (by decide)
    (by decide)

end TurnEngine

namespace TurnEngine

/-! ### State queries (claim C10) -/

/-- Claim C10: getGameState never mutates the engine — the stored session
state is returned unchanged as the second component — and the returned
value is a copy of the session state whose non-gameData fields equal the
stored ones; the private-data filter is applied only on that returned copy
(for a non-empty viewer identifier), never on the stored state. -/
theorem c10_getGameState_frame (h : GameHooks) (e : Engine)
    (viewer : Option String) (g : Game) (st : SessionState)
    (hg : e.game = some g)
    (hok : (getGameState h e viewer).1 = Except.ok st) :
    (getGameState h e viewer).2 = e ∧
    st.status = g.state.status ∧
    st.players = g.state.players ∧
    st.currentTurn = g.state.currentTurn ∧
    st.turnOrder = g.state.turnOrder ∧
    st.createdAt = g.state.createdAt ∧
    st.updatedAt = g.state.updatedAt ∧
    st.gameData = viewFilter h g.state.gameData viewer := by
  unfold getGameState at hok ⊢
  rw [hg] at hok ⊢
  dsimp only at hok ⊢
  refine ⟨rfl, ?_⟩
  unfold viewFilter
  cases viewer with
  | none =>
    cases Except.ok.inj hok
    exact ⟨rfl, rfl, rfl, rfl, rfl, rfl, rfl⟩
  | some pid =>
    dsimp only at hok ⊢
    by_cases hpid : pid = ""
    · rw [if_pos hpid] at hok ⊢
      cases Except.ok.inj hok
      exact ⟨rfl, rfl, rfl, rfl, rfl, rfl, rfl⟩
    · rw [if_neg hpid] at hok ⊢
      cases Except.ok.inj hok
      exact ⟨rfl, rfl, rfl, rfl, rfl, rfl, rfl⟩

/-- Witness for c10_getGameState_frame: querying the concrete two-player
session for viewer A leaves the engine untouched. -/
theorem c10_getGameState_frame_witness :
    (getGameState baseHooks twoE3 (some "A")).2 = twoE3 :=
  (c10_getGameState_frame baseHooks twoE3 (some "A") twoG3 twoG3.state
    (by decide) (by rfl)).1

end TurnEngine
